import Mathlib

/-!
Shallow embedding of the task-manager OAuth backend: the Mongoose `User`
model, the passport Google-strategy verify callback and user
(de)serialization from `backend/config/passport.js`, the authentication
middleware from `backend/middleware/auth.js`, the auth routes and session
cookie configuration from the server file, and the task resource handlers
(modelled from the spec where the controller source is absent).
Persistence stores are embedded as lists; async calls become plain
function application; thrown JS exceptions become `Except` values.
-/

namespace TaskManager

/-- The `User` Mongoose model (`userSchema`): googleId and email unique and
required, displayName required, firstName/lastName/picture optional,
createdAt and lastLogin defaulting to the current time. `_id` is the
Mongo-generated document id, embedded as a `Nat`. -/
structure Account where
  _id : Nat
  googleId : String
  email : String
  displayName : String
  firstName : Option String
  lastName : Option String
  picture : Option String
  createdAt : Nat
  lastLogin : Nat
deriving DecidableEq, Repr

/-- The persistent user collection, embedded as a list of documents. -/
abbrev UserStore := List Account

/-- `User.findById(id)`: the first document whose `_id` matches, if any. -/
def findById (store : UserStore) (id : Nat) : Option Account :=
  store.find? (fun a => a._id == id)

/-- `User.findOne(googleId: gid)`: the first document whose `googleId`
matches, if any. -/
def findByGoogleId (store : UserStore) (gid : String) : Option Account :=
  store.find? (fun a => a.googleId == gid)

/-- `user.save()` on an existing document: replaces the stored document
with the same `_id` by the in-memory one. -/
def saveUser (store : UserStore) (u : Account) : UserStore :=
  store.map (fun a => if a._id == u._id then u else a)

/-- The `name` object of a passport Google profile: `givenName` and
`familyName` may each be present or absent. -/
structure ProfileName where
  givenName : Option String
  familyName : Option String
deriving DecidableEq, Repr

/-- A passport Google profile as consumed by the verify callback.
`emails` and `photos` model the JS arrays of objects by the list of their
`value` fields; `none` models the whole field being absent, in which case
the JS property chain (`profile.emails[0].value` etc.) throws. -/
structure Profile where
  id : String
  emails : Option (List String)
  displayName : String
  name : Option ProfileName
  photos : Option (List String)
deriving DecidableEq, Repr

/-- Runtime errors inside the verify callback: a TypeError from reading a
property of `undefined`, or a Mongo duplicate-key error from a unique
constraint. -/
inductive JsErr where
  | typeError
  | duplicateKey
deriving DecidableEq, Repr

/-- `profile.emails[0].value`: throws unless `emails` is a non-empty
array. -/
def getEmail (p : Profile) : Except JsErr String :=
  match p.emails with
  | some (e :: _) => .ok e
  | _ => .error .typeError

/-- `profile.name.givenName`: throws if `name` is absent; an absent
`givenName` is just `undefined` (an optional field). -/
def getGivenName (p : Profile) : Except JsErr (Option String) :=
  match p.name with
  | some n => .ok n.givenName
  | none => .error .typeError

/-- `profile.name.familyName`: throws if `name` is absent. -/
def getFamilyName (p : Profile) : Except JsErr (Option String) :=
  match p.name with
  | some n => .ok n.familyName
  | none => .error .typeError

/-- `profile.photos[0].value`: throws unless `photos` is a non-empty
array. -/
def getPhoto (p : Profile) : Except JsErr String :=
  match p.photos with
  | some (ph :: _) => .ok ph
  | _ => .error .typeError

/-- The document passed to `User.create` in the new-user branch of the
verify callback, evaluated field by field as in JS: any property-chain
failure aborts with the thrown error. `freshId` is the Mongo-generated
`_id`; `now` fills the schema defaults `createdAt` and `lastLogin`. -/
def buildNewAccount (p : Profile) (freshId now : Nat) : Except JsErr Account :=
  match getEmail p with
  | .error e => .error e
  | .ok email =>
    match getGivenName p with
    | .error e => .error e
    | .ok given =>
      match getFamilyName p with
      | .error e => .error e
      | .ok family =>
        match getPhoto p with
        | .error e => .error e
        | .ok pic =>
          .ok { _id := freshId, googleId := p.id, email := email,
                displayName := p.displayName, firstName := given,
                lastName := family, picture := some pic,
                createdAt := now, lastLogin := now }

/-- `User.create(doc)`: inserts the document, failing with a duplicate-key
error if the unique `googleId` or `email` constraint is violated. -/
def dbCreate (store : UserStore) (a : Account) : Except JsErr UserStore :=
  if (findByGoogleId store a.googleId).isSome
      || (store.find? (fun b => b.email == a.email)).isSome then
    .error .duplicateKey
  else
    .ok (store ++ [a])

/-- The outcome handed to passport `done`: `done(null, user)` or
`done(error, null)`. -/
inductive DoneResult where
  | ok (user : Account)
  | error (e : JsErr)
deriving DecidableEq, Repr

/-- The GoogleStrategy verify callback of `config/passport.js`, together
with the state of the user collection after it runs. Existing user:
set `lastLogin` to now, save, `done(null, user)`. New user: build the
create document and insert it. The whole body sits in a try/catch whose
catch calls `done(error, null)`, so every error surfaces as
`DoneResult.error` with the store left as it was at the throw point. -/
def googleVerify (store : UserStore) (now freshId : Nat) (p : Profile) :
    DoneResult × UserStore :=
  match findByGoogleId store p.id with
  | some user =>
      let user' : Account := { user with lastLogin := now }
      (DoneResult.ok user', saveUser store user')
  | none =>
      match buildNewAccount p freshId now with
      | .error e => (DoneResult.error e, store)
      | .ok a =>
          match dbCreate store a with
          | .error e => (DoneResult.error e, store)
          | .ok store' => (DoneResult.ok a, store')

/-- `passport.serializeUser`: stores `user.id` in the session. -/
def serializeUser (u : Account) : Nat := u._id

/-- `passport.deserializeUser`: `User.findById(id)`; a missing document
yields `done(null, null)`, i.e. no user. -/
def deserializeUser (store : UserStore) (id : Nat) : Option Account :=
  findById store id

/-- The principal a request carries: `passport.session()` deserializes the
session-stored account id if a session exists; `req.isAuthenticated()` is
true exactly when this resolves to an account. -/
def resolveUser (store : UserStore) (sess : Option Nat) : Option Account :=
  match sess with
  | none => none
  | some id => deserializeUser store id

/-- What a guarded route produces: either the guard short-circuited with a
401 JSON body (status, message, redirectTo), or the protected handler ran
and produced its result. -/
inductive RouteResult (ρ : Type) where
  | unauthenticated (status : Nat) (message redirectTo : String)
  | handled (r : ρ)
deriving DecidableEq, Repr

/-- `ensureAuthenticated` of `middleware/auth.js`: if
`req.isAuthenticated()` it calls `next()` so the handler runs with the
resolved user on the request; otherwise it responds 401 with a JSON body
carrying a message and a login entry point. -/
def ensureAuthenticated {ρ : Type} (reqUser : Option Account)
    (handler : Account → ρ) : RouteResult ρ :=
  match reqUser with
  | some u => RouteResult.handled (handler u)
  | none =>
      RouteResult.unauthenticated 401
        "Authentication required. Please login first." "/auth/google"

/-- The possible outcomes of hitting the login route: the OAuth redirect
to the provider consent screen, or a redirect to `/dashboard`. -/
inductive LoginRouteResult where
  | oauthRedirect
  | dashboardRedirect
deriving DecidableEq, Repr

/-- `ensureGuest` of `middleware/auth.js`: an authenticated principal is
redirected to `/dashboard`; a guest falls through to the wrapped route. -/
def ensureGuest (reqUser : Option Account) (k : LoginRouteResult) :
    LoginRouteResult :=
  match reqUser with
  | some _ => LoginRouteResult.dashboardRedirect
  | none => k

/-- `GET /auth/google` as wired in `routes/auth.js`: only
`passport.authenticate` is installed, which issues the OAuth redirect; no
guest gate is applied, so the principal on the request is ignored. -/
def authGoogleRoute (reqUser : Option Account) : LoginRouteResult :=
  LoginRouteResult.oauthRedirect

/-- The JSON body and status produced by `GET /auth/logout`. -/
structure LogoutRes where
  status : Nat
  success : Bool
  message : String
deriving DecidableEq, Repr

/-- `GET /auth/logout` of `routes/auth.js`: `req.logout(cb)` clears the
login session unconditionally — also when the request carries no valid
session — and reports an error only if the underlying session machinery
fails (`logoutErr`). On error the route answers 500; otherwise it answers
200 with a success acknowledgment. Returns the response and the session
principal after the call. -/
def logoutRoute (logoutErr : Option String) (sess : Option Nat) :
    LogoutRes × Option Nat :=
  match logoutErr with
  | some _ => ({ status := 500, success := false, message := "Error logging out" }, sess)
  | none => ({ status := 200, success := true, message := "Logged out successfully" }, none)

/-- The session cookie attributes configured in the server file. -/
structure CookieConfig where
  secure : Bool
  httpOnly : Bool
  maxAge : Nat
  sameSite : String
deriving DecidableEq, Repr

/-- The `express-session` cookie configuration of the server file, as a
function of `process.env.NODE_ENV`. -/
def sessionCookie (nodeEnv : String) : CookieConfig :=
  { secure := nodeEnv == "production"
    httpOnly := true
    maxAge := 24 * 60 * 60 * 1000
    sameSite := if nodeEnv == "production" then "none" else "lax" }

/-- A JS `Error` as seen by the express error handler: its `message` and
its `stack`. -/
structure ServerError where
  message : String
  stack : String
deriving DecidableEq, Repr

/-- The JSON body the outermost error handler sends. -/
structure ErrorResponse where
  status : Nat
  success : Bool
  message : String
  error : String
deriving DecidableEq, Repr

/-- The outermost express error handler of the server file:
`console.error(err.stack)` then a 500 JSON body with a fixed message and
the `error` field set to `err.message`. The first component is what is
logged server-side; the second is the response sent to the client. -/
def errorHandler (err : ServerError) : String × ErrorResponse :=
  (err.stack,
   { status := 500, success := false, message := "Something went wrong!",
     error := err.message })

/-- Task status enum of the Task schema: pending, in-progress,
completed. -/
inductive TaskStatus where
  | pending
  | inProgress
  | completed
deriving DecidableEq, Repr

/-- A Task document: system-generated `_id`, title, description, status,
due date, owning account id (`userId`), creation time. -/
structure Task where
  _id : Nat
  title : String
  description : String
  status : TaskStatus
  dueDate : String
  userId : Nat
  createdAt : Nat
deriving DecidableEq, Repr

/-- The persistent task collection, embedded as a list of documents. -/
abbrev TaskStore := List Task

/-- What a task handler answers: 200 with the task data, 404 not found,
or 400 validation error. -/
inductive TaskResponse where
  | okTask (t : Task)
  | notFound
  | validationError
deriving DecidableEq, Repr

/-- `Task.findById(id)` over the embedded collection. -/
def taskFindById (tasks : TaskStore) (tid : Nat) : Option Task :=
  tasks.find? (fun t => t._id == tid)

/-- Modelled from the spec: `getTaskById` of `controllers/taskController.js`
is absent from the sources; per the spec it fetches by id and fails with
NotFound if the task is absent OR present but owned by a different
account, so that ownership mismatch is indistinguishable from absence. -/
def getTaskById (tasks : TaskStore) (uid tid : Nat) : TaskResponse :=
  match taskFindById tasks tid with
  | none => TaskResponse.notFound
  | some t =>
      if t.userId == uid then TaskResponse.okTask t else TaskResponse.notFound

/-- A partial-update request body: only the present fields are applied. -/
structure TaskPatch where
  title : Option String
  description : Option String
  status : Option TaskStatus
  dueDate : Option String
deriving DecidableEq, Repr

/-- Apply a partial update: absent fields keep their stored value. -/
def applyPatch (t : Task) (p : TaskPatch) : Task :=
  { t with title := p.title.getD t.title,
           description := p.description.getD t.description,
           status := p.status.getD t.status,
           dueDate := p.dueDate.getD t.dueDate }

/-- Modelled from the spec: field validation of the absent task
controller — title non-empty and bounded (100), description non-empty and
bounded (500), due date non-empty. -/
def validTask (t : Task) : Bool :=
  t.title ≠ "" && t.title.length ≤ 100
    && t.description ≠ "" && t.description.length ≤ 500
    && t.dueDate ≠ ""

/-- Modelled from the spec: `updateTask` of the absent task controller —
same ownership-or-NotFound rule as get, then partial update, revalidation,
persistence; returns the response and the collection after the call. -/
def updateTask (tasks : TaskStore) (uid tid : Nat) (p : TaskPatch) :
    TaskResponse × TaskStore :=
  match taskFindById tasks tid with
  | none => (TaskResponse.notFound, tasks)
  | some t =>
      if t.userId == uid then
        let t' := applyPatch t p
        if validTask t' then
          (TaskResponse.okTask t', tasks.map (fun s => if s._id == tid then t' else s))
        else
          (TaskResponse.validationError, tasks)
      else
        (TaskResponse.notFound, tasks)

/-- Modelled from the spec: `deleteTask` of the absent task controller —
same ownership-or-NotFound rule, removal, and the prior representation
returned. -/
def deleteTask (tasks : TaskStore) (uid tid : Nat) :
    TaskResponse × TaskStore :=
  match taskFindById tasks tid with
  | none => (TaskResponse.notFound, tasks)
  | some t =>
      if t.userId == uid then
        (TaskResponse.okTask t, tasks.filter (fun s => s._id != tid))
      else
        (TaskResponse.notFound, tasks)

/-- The whole persistent state: the user and task collections. -/
structure AppState where
  users : UserStore
  tasks : TaskStore
deriving DecidableEq, Repr

/-- The GET task handler over the whole state: reads tasks, writes
nothing. -/
def appGetTask (s : AppState) (uid tid : Nat) : TaskResponse × AppState :=
  (getTaskById s.tasks uid tid, s)

/-- The PUT task handler over the whole state: touches only the task
collection. -/
def appUpdateTask (s : AppState) (uid tid : Nat) (p : TaskPatch) :
    TaskResponse × AppState :=
  let r := updateTask s.tasks uid tid p
  (r.1, { s with tasks := r.2 })

/-- The DELETE task handler over the whole state: touches only the task
collection. -/
def appDeleteTask (s : AppState) (uid tid : Nat) : TaskResponse × AppState :=
  let r := deleteTask s.tasks uid tid
  (r.1, { s with tasks := r.2 })

/-- A concrete account used by witnesses. -/
def acctA : Account :=
  { _id := 1, googleId := "g-1", email := "a@x.com", displayName := "Alice A",
    firstName := some "Alice", lastName := some "A",
    picture := some "http://p/a.png", createdAt := 100, lastLogin := 100 }

/-- A second concrete account used by witnesses. -/
def acctB : Account :=
  { _id := 2, googleId := "g-2", email := "b@x.com", displayName := "Bob B",
    firstName := some "Bob", lastName := some "B",
    picture := some "http://p/b.png", createdAt := 200, lastLogin := 200 }

/-- A concrete well-formed Google profile used by witnesses. -/
def profC : Profile :=
  { id := "g-3", emails := some ["c@x.com"], displayName := "Cara C",
    name := some { givenName := some "Cara", familyName := some "C" },
    photos := some ["http://p/c.png"] }

/-- A concrete malformed Google profile (no `emails` array) used by
witnesses. -/
def profBad : Profile :=
  { id := "g-9", emails := none, displayName := "Mallory M",
    name := none, photos := none }

/-- A concrete Google profile matching `acctA` (same subject id) used by
witnesses. -/
def profA : Profile :=
  { id := "g-1", emails := some ["a@x.com"], displayName := "Alice A",
    name := some { givenName := some "Alice", familyName := some "A" },
    photos := some ["http://p/a.png"] }

/-- The account `buildNewAccount` constructs from `profC` with `_id` 3 at
time 300, used by witnesses. -/
def acctC : Account :=
  { _id := 3, googleId := "g-3", email := "c@x.com", displayName := "Cara C",
    firstName := some "Cara", lastName := some "C",
    picture := some "http://p/c.png", createdAt := 300, lastLogin := 300 }

/-- A concrete task owned by `acctA` used by witnesses. -/
def taskT : Task :=
  { _id := 10, title := "T1", description := "D", status := TaskStatus.pending,
    dueDate := "2025-12-01", userId := 1, createdAt := 150 }

/-- C2: for every request to a protected task route, an invalid session
(absent, or resolving to no account) makes `ensureAuthenticated` respond
401 with the machine-readable message and the login entry point
`/auth/google`, and the protected handler is never invoked (the outcome
does not depend on the handler); a valid session makes the guard run the
handler on the resolved account. -/
theorem c2_guard_gate {ρ : Type} (store : UserStore) (sess : Option Nat)
    (handler handler2 : Account → ρ) :
    (resolveUser store sess = none →
      ensureAuthenticated (resolveUser store sess) handler =
        RouteResult.unauthenticated 401
          "Authentication required. Please login first." "/auth/google"
      ∧ ensureAuthenticated (resolveUser store sess) handler =
          ensureAuthenticated (resolveUser store sess) handler2)
    ∧ (∀ u : Account, resolveUser store sess = some u →
        ensureAuthenticated (resolveUser store sess) handler =
          RouteResult.handled (handler u)) := by
  constructor
  · intro h
    rw [h]
    exact ⟨rfl, rfl⟩
  · intro u h
    rw [h]
    rfl

/-- Witness for C2: a concrete request with no session is refused with the
401 body, and a concrete request whose session resolves to `acctA` runs
the handler on `acctA`. -/
theorem c2_guard_gate_witness :
    (ensureAuthenticated (resolveUser [acctA] none) (fun u => u._id) =
      RouteResult.unauthenticated 401
        "Authentication required. Please login first." "/auth/google")
    ∧ ensureAuthenticated (resolveUser [acctA] (some 1)) (fun u => u._id) =
        RouteResult.handled 1 :=
  ⟨((c2_guard_gate [acctA] none (fun u => u._id) (fun _ => 0)).1 rfl).1,
   (c2_guard_gate [acctA] (some 1) (fun u => u._id) (fun _ => 0)).2 acctA rfl⟩

/-- C5: a session whose stored account id matches no account in the store
is treated as unauthenticated: the guard answers 401 and no protected
handler result is ever produced. -/
theorem c5_dangling_session {ρ : Type} (store : UserStore) (id : Nat)
    (handler : Account → ρ) (h : findById store id = none) :
    ensureAuthenticated (resolveUser store (some id)) handler =
      RouteResult.unauthenticated 401
        "Authentication required. Please login first." "/auth/google"
    ∧ ∀ r : ρ,
        ensureAuthenticated (resolveUser store (some id)) handler ≠
          RouteResult.handled r := by
  have hres : resolveUser store (some id) = none := by
    simp [resolveUser, deserializeUser, h]
  rw [hres]
  exact ⟨rfl, fun r hr => RouteResult.noConfusion hr⟩

/-- Witness for C5: the store holds only `acctA` (id 1); a session bound
to the deleted id 99 is refused with the 401 body. -/
theorem c5_dangling_session_witness :
    findById [acctA] 99 = none ∧
    ensureAuthenticated (resolveUser [acctA] (some 99)) (fun u => u._id) =
      RouteResult.unauthenticated 401
        "Authentication required. Please login first." "/auth/google" :=
  ⟨rfl, (c5_dangling_session [acctA] 99 (fun u => u._id) rfl).1⟩

/-- C6 counterexample: the route `GET /auth/google` as wired ignores the
principal on the request — an already-authenticated principal (`acctA`)
still gets the OAuth redirect, not the redirect to the authenticated
landing area, so the guest-only gate is not applied to the login route. -/
theorem c6_counterexample :
    authGoogleRoute (some acctA) = LoginRouteResult.oauthRedirect
    ∧ LoginRouteResult.oauthRedirect ≠ LoginRouteResult.dashboardRedirect :=
  ⟨rfl, by decide⟩

/-- C6 (amended): the companion guest-only gate `ensureGuest` does
redirect an authenticated principal to `/dashboard` and passes guests
through, but it is not applied to the login route: `GET /auth/google`
issues the OAuth redirect for every principal, authenticated or not. -/
theorem c6_guest_gate_unwired :
    (∀ (u : Account) (k : LoginRouteResult),
      ensureGuest (some u) k = LoginRouteResult.dashboardRedirect)
    ∧ (∀ k : LoginRouteResult, ensureGuest none k = k)
    ∧ (∀ reqUser : Option Account,
        authGoogleRoute reqUser = LoginRouteResult.oauthRedirect) :=
  ⟨fun _ _ => rfl, fun _ => rfl, fun _ => rfl⟩

/-- C7 counterexample: in production the session cookie's `sameSite`
attribute is `none`, not `strict` as the claim states. -/
theorem c7_counterexample :
    (sessionCookie "production").sameSite = "none"
    ∧ ("none" : String) ≠ "strict" :=
  ⟨rfl, by decide⟩

/-- C7 (amended): the session cookie always has `httpOnly = true`,
`secure` exactly in production, a fixed max-age of 24 hours, and
`sameSite` set to `none` in production and `lax` otherwise — it is never
`strict`. -/
theorem c7_cookie_attributes (env : String) :
    (sessionCookie env).httpOnly = true
    ∧ (sessionCookie env).secure = (env == "production")
    ∧ (sessionCookie env).maxAge = 86400000
    ∧ (sessionCookie env).sameSite
        = (if env == "production" then "none" else "lax")
    ∧ (sessionCookie env).sameSite ≠ "strict" := by
  refine ⟨rfl, rfl, rfl, rfl, ?_⟩
  show (if env == "production" then "none" else "lax") ≠ "strict"
  split <;> decide

/-- C8: when the underlying session machinery reports no error,
`GET /auth/logout` clears the session and answers 200 with the success
acknowledgment, for every incoming session state — also when the request
carries no session at all — and running logout again on the resulting
state gives the identical outcome (idempotence). -/
theorem c8_logout_idempotent (sess : Option Nat) :
    (logoutRoute none sess).1 =
      { status := 200, success := true, message := "Logged out successfully" }
    ∧ (logoutRoute none sess).2 = none
    ∧ logoutRoute none ((logoutRoute none sess).2) = logoutRoute none sess :=
  ⟨rfl, rfl, rfl⟩

/-- C9 counterexample: the outermost error handler puts the error's own
message into the response body (`error` field), so the 500 response is
not a generic message only — internal error detail reaches the client. -/
theorem c9_counterexample :
    (errorHandler
      { message := "connect ECONNREFUSED 127.0.0.1:27017",
        stack := "Error: connect ECONNREFUSED at TCPConnectWrap" }).2.error
      = "connect ECONNREFUSED 127.0.0.1:27017"
    ∧ ("connect ECONNREFUSED 127.0.0.1:27017" : String) ≠ "" :=
  ⟨rfl, by decide⟩

/-- C9 (amended): every error reaching the outermost handler yields a 500
whose body carries the fixed generic message and, in addition, the
error's `message` field; the stack trace is what is logged server-side
and it is not placed in the body. -/
theorem c9_error_handler (err : ServerError) :
    (errorHandler err).1 = err.stack
    ∧ (errorHandler err).2.status = 500
    ∧ (errorHandler err).2.success = false
    ∧ (errorHandler err).2.message = "Something went wrong!"
    ∧ (errorHandler err).2.error = err.message :=
  ⟨rfl, rfl, rfl, rfl, rfl⟩

/-- Helper: a successfully built create-document carries the profile's
subject id as its `googleId`. -/
theorem buildNewAccount_googleId (p : Profile) (fid now : Nat) (a : Account)
    (h : buildNewAccount p fid now = Except.ok a) : a.googleId = p.id := by
  cases he : getEmail p with
  | error e => simp [buildNewAccount, he] at h
  | ok email =>
    cases hg : getGivenName p with
    | error e => simp [buildNewAccount, he, hg] at h
    | ok given =>
      cases hf : getFamilyName p with
      | error e => simp [buildNewAccount, he, hg, hf] at h
      | ok family =>
        cases hp : getPhoto p with
        | error e => simp [buildNewAccount, he, hg, hf, hp] at h
        | ok pic =>
          simp only [buildNewAccount, he, hg, hf, hp, Except.ok.injEq] at h
          subst h
          rfl

/-- C3: reconciliation does exactly one persistence write. If an account
with the profile's subject id exists, the call updates and saves that
account and the collection keeps its size (no insert). If none exists,
the call appends exactly one new account built from the profile (no
update: the stored prefix is returned verbatim in `store ++ [a]`), and
reconciling again with the same subject id leaves the collection size
unchanged — no duplicate is ever created. -/
theorem c3_reconcile_single_write
    (store : UserStore) (now now₂ fid fid₂ : Nat) (p : Profile) (a : Account)
    (hbuild : buildNewAccount p fid now = Except.ok a)
    (hemail : ∀ b ∈ store, b.email ≠ a.email) :
    (∀ u, findByGoogleId store p.id = some u →
      googleVerify store now fid p
        = (DoneResult.ok { u with lastLogin := now },
           saveUser store { u with lastLogin := now })
      ∧ (googleVerify store now fid p).2.length = store.length)
    ∧ (findByGoogleId store p.id = none →
      googleVerify store now fid p = (DoneResult.ok a, store ++ [a])
      ∧ (googleVerify store now fid p).2.length = store.length + 1
      ∧ (googleVerify (store ++ [a]) now₂ fid₂ p).2.length
          = store.length + 1) := by
  have hga : a.googleId = p.id := buildNewAccount_googleId p fid now a hbuild
  constructor
  · intro u hu
    constructor
    · simp [googleVerify, hu]
    · simp [googleVerify, hu, saveUser]
  · intro hnone
    have h2 : store.find? (fun b => b.email == a.email) = none :=
      List.find?_eq_none.mpr (fun b hb => by simpa using hemail b hb)
    have h1 : findByGoogleId store a.googleId = none := by
      rw [hga]; exact hnone
    have hdb : dbCreate store a = Except.ok (store ++ [a]) := by
      simp [dbCreate, h1, h2]
    have hmain : googleVerify store now fid p = (DoneResult.ok a, store ++ [a]) := by
      simp [googleVerify, hnone, hbuild, hdb]
    have hn : store.find? (fun b => b.googleId == p.id) = none := hnone
    have hfind2 : findByGoogleId (store ++ [a]) p.id = some a := by
      unfold findByGoogleId
      rw [List.find?_append, hn]
      simp [hga]
    refine ⟨hmain, ?_, ?_⟩
    · rw [hmain]
      simp
    · simp [googleVerify, hfind2, saveUser]

/-- Witness for C3: a fresh subject id against a two-account store
inserts exactly the built account at the end. -/
theorem c3_reconcile_single_write_witness :
    googleVerify [acctA, acctB] 300 3 profC
      = (DoneResult.ok acctC, [acctA, acctB, acctC]) :=
  ((c3_reconcile_single_write [acctA, acctB] 300 301 3 4 profC acctC rfl
      (by decide)).2 rfl).1

/-- C4: when an account with the profile's subject id exists, the verify
callback returns that account with only `lastLogin` rewritten, and every
account in the post-call collection agrees with an account of the
pre-call collection on every field except possibly `lastLogin`; the
collection keeps its size; and the task handlers leave the user
collection untouched (GET leaves the whole state untouched). -/
theorem c4_lastlogin_only_frame
    (store : UserStore) (now fid : Nat) (p : Profile) (u : Account)
    (hfound : findByGoogleId store p.id = some u)
    (s : AppState) (uid tid : Nat) (tp : TaskPatch) :
    (googleVerify store now fid p).1 = DoneResult.ok { u with lastLogin := now }
    ∧ (∀ b' ∈ (googleVerify store now fid p).2, ∃ b ∈ store,
        b'._id = b._id ∧ b'.googleId = b.googleId ∧ b'.email = b.email
        ∧ b'.displayName = b.displayName ∧ b'.firstName = b.firstName
        ∧ b'.lastName = b.lastName ∧ b'.picture = b.picture
        ∧ b'.createdAt = b.createdAt)
    ∧ (googleVerify store now fid p).2.length = store.length
    ∧ (appGetTask s uid tid).2 = s
    ∧ (appUpdateTask s uid tid tp).2.users = s.users
    ∧ (appDeleteTask s uid tid).2.users = s.users := by
  have hu : u ∈ store := List.mem_of_find?_eq_some hfound
  refine ⟨?_, ?_, ?_, rfl, rfl, rfl⟩
  · simp [googleVerify, hfound]
  · intro b' hb'
    simp only [googleVerify, hfound] at hb'
    simp only [saveUser, List.mem_map] at hb'
    obtain ⟨b, hb, hfb⟩ := hb'
    split at hfb
    · subst hfb
      exact ⟨u, hu, rfl, rfl, rfl, rfl, rfl, rfl, rfl, rfl⟩
    · subst hfb
      exact ⟨b, hb, rfl, rfl, rfl, rfl, rfl, rfl, rfl, rfl⟩
  · simp [googleVerify, hfound, saveUser]

/-- Witness for C4: a repeat login of `acctA` returns `acctA` with only
`lastLogin` moved to 500, and the collection keeps both accounts. -/
theorem c4_lastlogin_only_frame_witness :
    (googleVerify [acctA, acctB] 500 9 profA).1
      = DoneResult.ok { acctA with lastLogin := 500 }
    ∧ (googleVerify [acctA, acctB] 500 9 profA).2.length = 2 :=
  ⟨(c4_lastlogin_only_frame [acctA, acctB] 500 9 profA acctA rfl
      ⟨[], []⟩ 0 0 ⟨none, none, none, none⟩).1,
   (c4_lastlogin_only_frame [acctA, acctB] 500 9 profA acctA rfl
      ⟨[], []⟩ 0 0 ⟨none, none, none, none⟩).2.2.1⟩

/-- C10: a malformed profile — `emails`, `name`, or `photos` absent, so
the JS property chain throws — never crashes the verify callback: for a
fresh subject id the thrown TypeError is caught and reported as
`done(error, null)`, the user collection is left unchanged, and the login
follows the failure path (the result is never a success). -/
theorem c10_verify_callback_catches
    (store : UserStore) (now fid : Nat) (p : Profile)
    (hnew : findByGoogleId store p.id = none)
    (hmal : p.emails = none ∨ p.name = none ∨ p.photos = none) :
    googleVerify store now fid p = (DoneResult.error JsErr.typeError, store)
    ∧ ∀ u : Account,
        (googleVerify store now fid p).1 ≠ DoneResult.ok u := by
  have hb : buildNewAccount p fid now = Except.error JsErr.typeError := by
    rcases hmal with h | h | h
    · simp [buildNewAccount, getEmail, h]
    · rcases hpe : p.emails with _ | l
      · simp [buildNewAccount, getEmail, hpe]
      · rcases l with _ | ⟨x, xs⟩
        · simp [buildNewAccount, getEmail, hpe]
        · simp [buildNewAccount, getEmail, getGivenName, hpe, h]
    · rcases hpe : p.emails with _ | l
      · simp [buildNewAccount, getEmail, hpe]
      · rcases l with _ | ⟨x, xs⟩
        · simp [buildNewAccount, getEmail, hpe]
        · rcases hpn : p.name with _ | n
          · simp [buildNewAccount, getEmail, getGivenName, hpe, hpn]
          · simp [buildNewAccount, getEmail, getGivenName, getFamilyName,
                  getPhoto, hpe, hpn, h]
  have hm : googleVerify store now fid p
      = (DoneResult.error JsErr.typeError, store) := by
    simp [googleVerify, hnew, hb]
  refine ⟨hm, fun u hu => ?_⟩
  rw [hm] at hu
  exact DoneResult.noConfusion hu

/-- Witness for C10: the profile with no `emails`, `name`, or `photos`
and fresh subject id g-9 yields a caught TypeError and an unchanged
store. -/
theorem c10_verify_callback_catches_witness :
    googleVerify [acctA] 400 7 profBad
      = (DoneResult.error JsErr.typeError, [acctA]) :=
  (c10_verify_callback_catches [acctA] 400 7 profBad rfl (Or.inl rfl)).1

/-- C1 (task handlers modelled from the spec): for a task T owned by
account A, a request authenticated as a different account B against get,
update, or delete by T's id answers NotFound, leaves the task collection
unchanged, and is the same NotFound the caller would see if the task did
not exist at all (the response on the store with T's id filtered out is
identical). -/
theorem c1_ownership_notfound
    (tasks : TaskStore) (A B tid : Nat) (T : Task) (tp : TaskPatch)
    (hT : T ∈ tasks) (hTid : T._id = tid) (hTown : T.userId = A)
    (hOwner : ∀ t ∈ tasks, t._id = tid → t.userId = A)
    (hAB : A ≠ B) :
    getTaskById tasks B tid = TaskResponse.notFound
    ∧ updateTask tasks B tid tp = (TaskResponse.notFound, tasks)
    ∧ deleteTask tasks B tid = (TaskResponse.notFound, tasks)
    ∧ getTaskById (tasks.filter (fun t => t._id != tid)) B tid
        = TaskResponse.notFound := by
  have hB : ∀ t, taskFindById tasks tid = some t → (t.userId == B) = false := by
    intro t ht
    have h1 : t._id = tid := by simpa using List.find?_some ht
    have h2 : t.userId = A := hOwner t (List.mem_of_find?_eq_some ht) h1
    have h3 : (A == B) = false := by simpa using hAB
    rw [h2]
    exact h3
  have hfilter : taskFindById (tasks.filter (fun t => t._id != tid)) tid = none := by
    apply List.find?_eq_none.mpr
    intro x hx
    have hx2 := (List.mem_filter.mp hx).2
    simpa using hx2
  refine ⟨?_, ?_, ?_, ?_⟩
  · cases h : taskFindById tasks tid with
    | none => simp [getTaskById, h]
    | some t => simp [getTaskById, h, hB t h]
  · cases h : taskFindById tasks tid with
    | none => simp [updateTask, h]
    | some t => simp [updateTask, h, hB t h]
  · cases h : taskFindById tasks tid with
    | none => simp [deleteTask, h]
    | some t => simp [deleteTask, h, hB t h]
  · simp [getTaskById, hfilter]

/-- Witness for C1: task 10 is owned by account 1; account 2 gets
NotFound from get and delete, and the collection survives the delete. -/
theorem c1_ownership_notfound_witness :
    getTaskById [taskT] 2 10 = TaskResponse.notFound
    ∧ deleteTask [taskT] 2 10 = (TaskResponse.notFound, [taskT]) :=
  let h := c1_ownership_notfound [taskT] 1 2 10 taskT
    ⟨none, none, none, none⟩ (by decide) rfl rfl (by decide) (by decide)
  ⟨h.1, h.2.2.1⟩

end TaskManager
